import Mathlib

/-!
Shallow embedding of the omsim-rs decoder (src/parse.rs, src/data.rs) and
verification of its specification claims.

Byte buffers are modelled as `List Nat` (each element one byte). Every parser
method of the Rust `BaseParser` becomes a function `List Nat → POut α` that
returns the parsed value together with the remaining bytes, an error message
(the Rust `Err(&'static str)` path), or a panic (a Rust runtime panic such as
an out-of-bounds slice or a `Vec::with_capacity` capacity overflow, which is
not an `Err` return).
-/

namespace OmSim

/-- Outcome of running a parser method: success with the value and the
remaining bytes, an error return, or a Rust runtime panic. -/
inductive POut (α : Type) where
  | ok (val : α) (rest : List Nat) : POut α
  | err (msg : String) : POut α
  | panic (msg : String) : POut α
deriving DecidableEq, Repr

/-- A parser method of `BaseParser`: consumes bytes from the front of the
remaining data (the Rust code keeps a shrinking slice `self.data`). -/
def Parser (α : Type) : Type := List Nat → POut α

/-- Sequencing of parser outcomes: errors and panics propagate, mirroring the
Rust `?` operator (and the fact that a panic aborts everything). -/
def POut.after {α β : Type} : POut α → (α → Parser β) → POut β
  | .ok a rest, f => f a rest
  | .err e, _ => .err e
  | .panic e, _ => .panic e

instance : Monad Parser where
  pure := fun a d => .ok a d
  bind := fun p f d => (p d).after f

/-- A parser that returns `Err(msg)`, as in the Rust `return Err(...)`. -/
def perr {α : Type} (msg : String) : Parser α := fun _ => .err msg

/-- Models Rust `Option::ok_or(msg)?`: unwrap the option or return the error. -/
def okOr {α : Type} (o : Option α) (msg : String) : Parser α :=
  match o with
  | some a => pure a
  | none => perr msg

/-- True exactly when the outcome is an error return (`Err(...)` in Rust), as
opposed to a success or a panic. -/
def POut.isErr {α : Type} : POut α → Bool
  | .err _ => true
  | _ => false

-- Data model (src/data.rs) ---------------------------------------------------

/-- A hex-grid coordinate. The Rust type declares fields `p` and `q`, but every
construction site in parse.rs uses names `q` and `r`; we follow the
construction sites (the spec notes this naming mismatch as an open question
and mandates a single consistent two-axis pair). -/
structure HexIndex where
  q : Int
  r : Int
deriving DecidableEq, Repr

/-- The closed enumeration of atom kinds. -/
inductive Atom where
  | Salt | Air | Earth | Fire | Water
  | Quicksilver | Vitae | Mors
  | Lead | Tin | Iron | Copper | Silver | Gold
  | Quintessence
  | Repeat
deriving DecidableEq, Repr

/-- Models `Atom::from_id`. -/
def Atom.from_id (id : Nat) : Option Atom :=
  match id with
  | 1 => some .Salt
  | 2 => some .Air
  | 3 => some .Earth
  | 4 => some .Fire
  | 5 => some .Water
  | 6 => some .Quicksilver
  | 7 => some .Gold
  | 8 => some .Silver
  | 9 => some .Copper
  | 10 => some .Iron
  | 11 => some .Tin
  | 12 => some .Lead
  | 13 => some .Vitae
  | 14 => some .Mors
  | 15 => some .Repeat
  | 16 => some .Quintessence
  | _ => none

/-- A bond is either plain (`Normal`) or a triplex bond with three color flags. -/
inductive BondType where
  | Normal : BondType
  | Triplex (red black yellow : Bool) : BondType
deriving DecidableEq, Repr

/-- A typed edge between two hex positions. The Rust field `end` is a reserved
word in Lean, so it is named `stop` here. -/
structure Bond where
  start : HexIndex
  stop : HexIndex
  ty : BondType
deriving DecidableEq, Repr

/-- Models `HashMap::insert` semantics on an association list: replace the
value at an existing key, otherwise append the pair. -/
def mapInsert : List (HexIndex × Atom) → HexIndex → Atom → List (HexIndex × Atom)
  | [], k, v => [(k, v)]
  | (k0, v0) :: rest, k, v =>
      if k0 = k then (k0, v) :: rest else (k0, v0) :: mapInsert rest k v

/-- Lookup in the association-list model of `HashMap<HexIndex, Atom>`. -/
def mapLookup : List (HexIndex × Atom) → HexIndex → Option Atom
  | [], _ => none
  | (k, v) :: rest, key => if k = key then some v else mapLookup rest key

/-- Models `HashMap::from_iter`: fold the pairs through insert, in order, so a
later pair at the same key overwrites the earlier one. -/
def hashMapOfList (l : List (HexIndex × Atom)) : List (HexIndex × Atom) :=
  l.foldl (fun m kv => mapInsert m kv.1 kv.2) []

/-- Models `HashSet::insert` on a duplicate-free list: exact duplicates are
dropped. -/
def setInsert (s : List Bond) (b : Bond) : List Bond :=
  if b ∈ s then s else s ++ [b]

/-- Models `HashSet::from_iter` over the parsed bond list. -/
def hashSetOfList (l : List Bond) : List Bond := l.foldl setInsert []

/-- A molecule: the atom map (modelled as the insert-folded association list)
and the deduplicated bond collection. -/
structure Molecule where
  atoms : List (HexIndex × Atom)
  bonds : List Bond
deriving DecidableEq, Repr

/-- The 64-bit permissions bitmask. `bitflags` with `const _ = !0;` keeps every
bit, so the model is just the raw 64-bit value. -/
structure Permissions where
  bits : Nat
deriving DecidableEq, Repr

/-- Models `Permissions::from_bits_retain`: stores the mask verbatim, unknown
bits included (bitflags retains all bits for this constructor). -/
def Permissions.from_bits_retain (v : Nat) : Permissions := ⟨v⟩

/-- Solution performance metrics. -/
structure Metrics where
  cycles : Int
  cost : Int
  area : Int
  instructions : Int
deriving DecidableEq, Repr

/-- The closed enumeration of production chamber sizes. -/
inductive ChamberType where
  | Small | SmallWide | SmallWider
  | Medium | MediumWide
  | Large
deriving DecidableEq, Repr

/-- Models `ChamberType::from_name`. Rust `String` equality coincides with byte
equality of the UTF-8 encoding, so names are compared as byte lists; all
names are ASCII. -/
def ChamberType.from_name (name : List Nat) : Option ChamberType :=
  if name = [83, 109, 97, 108, 108] then some .Small                          -- "Small"
  else if name = [83, 109, 97, 108, 108, 87, 105, 100, 101] then some .SmallWide -- "SmallWide"
  else if name = [83, 109, 97, 108, 108, 87, 105, 100, 101, 114] then some .SmallWider -- "SmallWider"
  else if name = [77, 101, 100, 105, 117, 109] then some .Medium              -- "Medium"
  else if name = [77, 101, 100, 105, 117, 109, 87, 105, 100, 101] then some .MediumWide -- "MediumWide"
  else if name = [76, 97, 114, 103, 101] then some .Large                     -- "Large"
  else none

/-- A production chamber: a position plus a chamber type. -/
structure Chamber where
  pos : HexIndex
  ty : ChamberType
deriving DecidableEq, Repr

/-- A production conduit: two endpoints plus a path of hexes. -/
structure Conduit where
  pos_a : HexIndex
  pos_b : HexIndex
  hexes : List HexIndex
deriving DecidableEq, Repr

/-- Optional production metadata of a puzzle. -/
structure ProductionInfo where
  isolation : Bool
  chambers : List Chamber
  conduits : List Conduit
deriving DecidableEq, Repr

/-- A decoded puzzle. Strings are modelled as their UTF-8 byte lists. -/
structure Puzzle where
  name : List Nat
  creator_id : Nat
  reagents : List Molecule
  products : List Molecule
  product_multiplier : Int
  permissions : Permissions
  production_info : Option ProductionInfo
deriving DecidableEq, Repr

/-- The closed enumeration of mechanism/glyph kinds. -/
inductive PartType where
  | Input | Output | PolymerOutput
  | Arm | BiArm | TriArm | HexArm | PistonArm
  | Track | Berlo
  | Equilibrium | Bonding | MultiBonding | Debonding | Calcification
  | Projection | Purification
  | Duplication | Animismus
  | Unification | Dispersion
  | TriplexBonding
  | Disposal
  | Conduit
deriving DecidableEq, Repr

/-- Models `PartType::from_name` (names as UTF-8 byte lists; all ASCII). -/
def PartType.from_name (name : List Nat) : Option PartType :=
  if name = [105, 110, 112, 117, 116] then some .Input                        -- "input"
  else if name = [111, 117, 116, 45, 115, 116, 100] then some .Output         -- "out-std"
  else if name = [111, 117, 116, 45, 114, 101, 112] then some .PolymerOutput  -- "out-rep"
  else if name = [97, 114, 109, 49] then some .Arm                            -- "arm1"
  else if name = [97, 114, 109, 50] then some .BiArm                          -- "arm2"
  else if name = [97, 114, 109, 51] then some .TriArm                         -- "arm3"
  else if name = [97, 114, 109, 54] then some .HexArm                         -- "arm6"
  else if name = [112, 105, 115, 116, 111, 110] then some .PistonArm          -- "piston"
  else if name = [116, 114, 97, 99, 107] then some .Track                     -- "track"
  else if name = [98, 97, 114, 111, 110] then some .Berlo                     -- "baron"
  else if name = [103, 108, 121, 112, 104, 45, 109, 97, 114, 107, 101, 114] then some .Equilibrium -- "glyph-marker"
  else if name = [98, 111, 110, 100, 101, 114] then some .Bonding             -- "bonder"
  else if name = [98, 111, 110, 100, 101, 114, 45, 115, 112, 101, 101, 100] then some .MultiBonding -- "bonder-speed"
  else if name = [117, 110, 98, 111, 110, 100, 101, 114] then some .Debonding -- "unbonder"
  else if name = [103, 108, 121, 112, 104, 45, 99, 97, 108, 99, 105, 102, 105, 99, 97, 116, 105, 111, 110] then some .Calcification -- "glyph-calcification"
  else if name = [103, 108, 121, 112, 104, 45, 112, 114, 111, 106, 101, 99, 116, 105, 111, 110] then some .Projection -- "glyph-projection"
  else if name = [103, 108, 121, 112, 104, 45, 112, 117, 114, 105, 102, 105, 99, 97, 116, 105, 111, 110] then some .Purification -- "glyph-purification"
  else if name = [103, 108, 121, 112, 104, 45, 100, 117, 112, 108, 105, 99, 97, 116, 105, 111, 110] then some .Duplication -- "glyph-duplication"
  else if name = [103, 108, 121, 112, 104, 45, 108, 105, 102, 101, 45, 97, 110, 100, 45, 100, 101, 97, 116, 104] then some .Animismus -- "glyph-life-and-death"
  else if name = [103, 108, 121, 112, 104, 45, 117, 110, 105, 102, 105, 99, 97, 116, 105, 111, 110] then some .Unification -- "glyph-unification"
  else if name = [103, 108, 121, 112, 104, 45, 100, 105, 115, 112, 101, 114, 115, 105, 111, 110] then some .Dispersion -- "glyph-dispersion"
  else if name = [98, 111, 110, 100, 101, 114, 45, 112, 114, 105, 115, 109, 97] then some .TriplexBonding -- "bonder-prisma"
  else if name = [103, 108, 121, 112, 104, 45, 100, 105, 115, 112, 111, 115, 97, 108] then some .Disposal -- "glyph-disposal"
  else if name = [112, 105, 112, 101] then some .Conduit                      -- "pipe"
  else none

/-- The closed enumeration of per-cycle instructions. -/
inductive Instruction where
  | Blank
  | Grab | Drop
  | RotateClockwise | RotateAnticlockwise
  | Extend | Retract
  | PivotClockwise | PivotAnticlockwise
  | Advance | Retreat
  | PeriodOverride | Reset | Repeat
deriving DecidableEq, Repr

/-- Models `Instruction::from_id` (ASCII byte codes). -/
def Instruction.from_id (id : Nat) : Option Instruction :=
  match id with
  | 32 => some .Blank               -- ' '
  | 71 => some .Grab                -- 'G'
  | 103 => some .Drop               -- 'g'
  | 82 => some .RotateClockwise     -- 'R'
  | 114 => some .RotateAnticlockwise -- 'r'
  | 69 => some .Extend              -- 'E'
  | 101 => some .Retract            -- 'e'
  | 80 => some .PivotClockwise      -- 'P'
  | 112 => some .PivotAnticlockwise -- 'p'
  | 65 => some .Advance             -- 'A'
  | 97 => some .Retreat             -- 'a'
  | 79 => some .PeriodOverride      -- 'O'
  | 88 => some .Reset               -- 'X'
  | 67 => some .Repeat              -- 'C'
  | _ => none

/-- A placed mechanism or glyph of a solution. -/
structure Part where
  ty : PartType
  pos : HexIndex
  rotation : Int
  arm_number : Int
  arm_length : Int
  index : Int
  conduit_index : Int
  track_hexes : List HexIndex
  conduit_hexes : List HexIndex
  instructions : List (Instruction × Int)
deriving DecidableEq, Repr

/-- A decoded solution. The Rust struct in data.rs omits `puzzle_name`, but
parse.rs constructs the value with it (and the spec lists it), so the model
includes it. -/
structure Solution where
  name : List Nat
  puzzle_name : List Nat
  metrics : Option Metrics
  parts : List Part
deriving DecidableEq, Repr

-- Byte parsing (src/parse.rs, impl BaseParser) -------------------------------

/-- Models `BaseParser::parse_byte`: one byte, or `Err("not enough bytes")`. -/
def parse_byte : Parser Nat := fun d =>
  match d with
  | [] => .err "not enough bytes"
  | b :: rest => .ok b rest

/-- Two's-complement reading of one byte as `i8` (`i8::from_be_bytes`). -/
def toSigned8 (b : Nat) : Int := if b < 128 then (b : Int) else (b : Int) - 256

/-- Models `BaseParser::parse_sbyte`. -/
def parse_sbyte : Parser Int := fun d =>
  match d with
  | [] => .err "not enough bytes"
  | b :: rest => .ok (toSigned8 b) rest

/-- Models `BaseParser::parse_bool`: one byte, nonzero means true. -/
def parse_bool : Parser Bool := do
  let b ← parse_byte
  pure (b != 0)

/-- Little-endian recombination of four bytes. -/
def le32 (b0 b1 b2 b3 : Nat) : Nat := b0 + 256 * b1 + 65536 * b2 + 16777216 * b3

/-- Two's-complement reading of a 32-bit value as `i32` (`i32::from_le_bytes`). -/
def toSigned32 (n : Nat) : Int :=
  if n < 2147483648 then (n : Int) else (n : Int) - 4294967296

/-- Models `BaseParser::parse_int`: four little-endian bytes as `i32`. -/
def parse_int : Parser Int := fun d =>
  match d with
  | b0 :: b1 :: b2 :: b3 :: rest => .ok (toSigned32 (le32 b0 b1 b2 b3)) rest
  | _ => .err "not enough bytes to read int"

/-- Little-endian recombination of eight bytes. -/
def le64 (b0 b1 b2 b3 b4 b5 b6 b7 : Nat) : Nat :=
  b0 + 256 * b1 + 65536 * b2 + 16777216 * b3 + 4294967296 * b4
    + 1099511627776 * b5 + 281474976710656 * b6 + 72057594037927936 * b7

/-- Models `BaseParser::parse_ulong`: eight little-endian bytes as `u64`. -/
def parse_ulong : Parser Nat := fun d =>
  match d with
  | b0 :: b1 :: b2 :: b3 :: b4 :: b5 :: b6 :: b7 :: rest =>
      .ok (le64 b0 b1 b2 b3 b4 b5 b6 b7) rest
  | _ => .err "not enough bytes to read ulong"

/-- Models the `while self.data.len() > 0` loop body of
`BaseParser::parse_var_int`: read a byte, or in the low 7 bits shifted by the
running shift (`usize` arithmetic, hence mod 2^64), then break unless
`(next & 0x80) != 1` fails. The test `(next & 0x80) != 1` is kept exactly as
the source writes it. -/
def parse_var_int_loop : List Nat → Nat → Nat → Nat × List Nat
  | [], value, _shift => (value, [])
  | b :: rest, value, shift =>
      let v2 := (value ||| ((b &&& 127) <<< shift)) % 18446744073709551616
      if b &&& 128 ≠ 1 then (v2, rest)
      else parse_var_int_loop rest v2 (shift + 7)

/-- Models `BaseParser::parse_var_int`. Returns `Ok(value)` in all cases. -/
def parse_var_int : Parser Nat := fun d =>
  let p := parse_var_int_loop d 0 0
  .ok p.1 p.2

/-- Standard UTF-8 continuation byte test (0x80..=0xBF). -/
def is_cont (b : Nat) : Bool := 128 ≤ b && b ≤ 191

/-- Models the validity check of Rust `String::from_utf8`: well-formedness of
the byte list as UTF-8 (shortest forms only, no surrogates, max U+10FFFF). -/
def utf8_valid : List Nat → Bool
  | [] => true
  | b :: rest =>
    if b ≤ 127 then utf8_valid rest
    else if 194 ≤ b && b ≤ 223 then
      match rest with
      | c1 :: r => is_cont c1 && utf8_valid r
      | [] => false
    else if b = 224 then
      match rest with
      | c1 :: c2 :: r => (160 ≤ c1 && c1 ≤ 191) && is_cont c2 && utf8_valid r
      | _ => false
    else if (225 ≤ b && b ≤ 236) || b = 238 || b = 239 then
      match rest with
      | c1 :: c2 :: r => is_cont c1 && is_cont c2 && utf8_valid r
      | _ => false
    else if b = 237 then
      match rest with
      | c1 :: c2 :: r => (128 ≤ c1 && c1 ≤ 159) && is_cont c2 && utf8_valid r
      | _ => false
    else if b = 240 then
      match rest with
      | c1 :: c2 :: c3 :: r =>
          (144 ≤ c1 && c1 ≤ 191) && is_cont c2 && is_cont c3 && utf8_valid r
      | _ => false
    else if 241 ≤ b && b ≤ 243 then
      match rest with
      | c1 :: c2 :: c3 :: r => is_cont c1 && is_cont c2 && is_cont c3 && utf8_valid r
      | _ => false
    else if b = 244 then
      match rest with
      | c1 :: c2 :: c3 :: r =>
          (128 ≤ c1 && c1 ≤ 143) && is_cont c2 && is_cont c3 && utf8_valid r
      | _ => false
    else false

/-- Models `BaseParser::parse_string`: read a varint length, slice that many
bytes (the Rust `&self.data[..length]` panics when fewer bytes remain — there
is no length check), validate UTF-8, then advance past them. -/
def parse_string : Parser (List Nat) := do
  let length ← parse_var_int
  fun d =>
    if d.length < length then .panic "slice index out of range"
    else
      let s := d.take length
      if utf8_valid s then .ok s (d.drop length)
      else .err "invalid utf8"

/-- Runs the element parser `n` times in order, collecting the results, as the
`for _ in 0..amount` loop of `BaseParser::parse_list` does. -/
def parse_count {α : Type} (f : Parser α) : Nat → Parser (List α)
  | 0 => pure []
  | n + 1 => do
      let x ← f
      let xs ← parse_count f n
      pure (x :: xs)

/-- Models `BaseParser::parse_list`: read an `i32` count, then
`Vec::with_capacity(amount as usize)` — for a negative count the cast yields a
capacity above `isize::MAX` bytes and `with_capacity` panics with a capacity
overflow before the element loop — then run the element parser `amount`
times. -/
def parse_list {α : Type} (f : Parser α) : Parser (List α) := do
  let amount ← parse_int
  if amount < 0 then fun _ => .panic "capacity overflow"
  else parse_count f amount.toNat

/-- Models `BaseParser::parse_b_hex_index`: two signed bytes, `q` then `r`. -/
def parse_b_hex_index : Parser HexIndex := do
  let q ← parse_sbyte
  let r ← parse_sbyte
  pure ⟨q, r⟩

/-- Models `BaseParser::parse_i_hex_index`: two signed 32-bit ints, `q` then
`r`. -/
def parse_i_hex_index : Parser HexIndex := do
  let q ← parse_int
  let r ← parse_int
  pure ⟨q, r⟩

/-- Models `BaseParser::parse_atom`. -/
def parse_atom : Parser Atom := do
  let b ← parse_byte
  okOr (Atom.from_id b) "invalid atom type"

/-- Models `BaseParser::parse_bond_type`: byte `1` is a plain bond; any bit in
the mask `0b1111_0001` (other than the exact value `1`) is invalid; otherwise
bits 1, 2, 3 are the red, black, yellow triplex flags. -/
def parse_bond_type : Parser BondType := do
  let ty ← parse_byte
  if ty = 1 then pure .Normal
  else if ty &&& 0b11110001 ≠ 0 then perr "invalid bond type"
  else pure (.Triplex (ty &&& 0b10 != 0) (ty &&& 0b100 != 0) (ty &&& 0b1000 != 0))

/-- Models `BaseParser::parse_bond`: bond type, then start and end positions. -/
def parse_bond : Parser Bond := do
  let ty ← parse_bond_type
  let start ← parse_b_hex_index
  let stop ← parse_b_hex_index
  pure { start := start, stop := stop, ty := ty }

/-- Models `BaseParser::parse_molecule`: a list of (atom, position) entries
folded into the atom map (`HashMap::from_iter`, last write wins), then a list
of bonds folded into the bond set (`HashSet::from_iter`). -/
def parse_molecule : Parser Molecule := do
  let entries ← parse_list (do
    let atom ← parse_atom
    let index ← parse_b_hex_index
    pure (index, atom))
  let bonds ← parse_list parse_bond
  pure { atoms := hashMapOfList entries, bonds := hashSetOfList bonds }

-- Top-level decoders (src/parse.rs) ------------------------------------------

/-- Models `parse_puzzle`: version sentinel 3, name, creator id, permissions
(stored verbatim via `from_bits_retain`), reagents, products, product
multiplier, then the boolean-gated production info block. -/
def parse_puzzle : Parser Puzzle := do
  let version ← parse_int
  if version ≠ 3 then perr "not an opus magnum puzzle" else do
  let name ← parse_string
  let creator_id ← parse_ulong
  let permissions ← do
    let u ← parse_ulong
    pure (Permissions.from_bits_retain u)
  let reagents ← parse_list parse_molecule
  let products ← parse_list parse_molecule
  let product_multiplier ← parse_int
  let production_info ← do
    let has ← parse_bool
    if has then do
      let _shrink_left ← parse_bool
      let _shrink_right ← parse_bool
      let isolation ← parse_bool
      let chambers ← parse_list (do
        let pos ← parse_b_hex_index
        let s ← parse_string
        let ty ← okOr (ChamberType.from_name s) "invalid chamber type"
        pure { pos := pos, ty := ty : Chamber })
      let conduits ← parse_list (do
        let pos_a ← parse_b_hex_index
        let pos_b ← parse_b_hex_index
        let hexes ← parse_list parse_b_hex_index
        pure { pos_a := pos_a, pos_b := pos_b, hexes := hexes : Conduit })
      pure (some { isolation := isolation, chambers := chambers, conduits := conduits :
        ProductionInfo })
    else pure none
  pure { name := name, creator_id := creator_id, reagents := reagents,
         products := products, product_multiplier := product_multiplier,
         permissions := permissions, production_info := production_info }

/-- Models the metrics block of `parse_solution` (the `match parser.parse_int()?`
at lines 49-63): tag 0 gives no metrics; tag 4 gives four (sentinel, value)
pairs whose sentinels must read 0, 1, 2, 3 in order; any other tag is an
error. -/
def parse_metrics : Parser (Option Metrics) := do
  let tag ← parse_int
  if tag = 0 then pure none
  else if tag = 4 then do
    let s0 ← parse_int
    if s0 ≠ 0 then perr "invalid solution (0 != 0)" else do
    let cycles ← parse_int
    let s1 ← parse_int
    if s1 ≠ 1 then perr "invalid solution (1 != 1)" else do
    let cost ← parse_int
    let s2 ← parse_int
    if s2 ≠ 2 then perr "invalid solution (2 != 2)" else do
    let area ← parse_int
    let s3 ← parse_int
    if s3 ≠ 3 then perr "invalid solution (3 != 3)" else do
    let instructions ← parse_int
    pure (some { cycles := cycles, cost := cost, area := area,
                 instructions := instructions })
  else perr "invalid number of metrics"

/-- Models the conditional track-path read of a part (parse.rs lines 77-79):
read a list of wide hex coordinates exactly when the part name is "track",
otherwise produce the empty list without consuming bytes. -/
def parse_track_hexes (part_name : List Nat) : Parser (List HexIndex) :=
  if part_name = [116, 114, 97, 99, 107] then parse_list parse_i_hex_index
  else pure []

/-- Models the conditional conduit read of a part (parse.rs lines 83-85): read
a conduit index and a list of wide hex coordinates exactly when the part name
is "pipe", otherwise produce `(0, [])` without consuming bytes. -/
def parse_conduit_fields (part_name : List Nat) : Parser (Int × List HexIndex) :=
  if part_name = [112, 105, 112, 101] then do
    let conduit_index ← parse_int
    let conduit_hexes ← parse_list parse_i_hex_index
    pure (conduit_index, conduit_hexes)
  else pure (0, [])

/-- Models the per-part closure of `parse_solution` (lines 64-99): name,
structural sentinel byte 1, position, arm length, rotation, index, the
instruction tape, the track-conditional list, the 0-based arm number plus one,
the pipe-conditional conduit fields, and finally the name-to-type lookup. -/
def parse_part : Parser Part := do
  let part_name ← parse_string
  let sentinel ← parse_byte
  if sentinel ≠ 1 then perr "invalid solution part (1 != 1)" else do
  let pos ← parse_i_hex_index
  let arm_length ← parse_int
  let rotation ← parse_int
  let index ← parse_int
  let instructions ← parse_list (do
    let idx ← parse_int
    let instr ← parse_byte
    let i ← okOr (Instruction.from_id instr) "invalid instruction id"
    pure (i, idx))
  let track_hexes ← parse_track_hexes part_name
  let arm_number ← do
    let raw ← parse_int
    pure (raw + 1)
  let cf ← parse_conduit_fields part_name
  let ty ← okOr (PartType.from_name part_name) "invalid part type"
  pure { ty := ty, pos := pos, rotation := rotation, arm_number := arm_number,
         arm_length := arm_length, index := index, conduit_index := cf.1,
         track_hexes := track_hexes, conduit_hexes := cf.2,
         instructions := instructions }

/-- Models `parse_solution`: version sentinel 7, puzzle name, solution name,
the metrics block, then the parts list. -/
def parse_solution : Parser Solution := do
  let version ← parse_int
  if version ≠ 7 then perr "not an opus magnum solution" else do
  let puzzle_name ← parse_string
  let name ← parse_string
  let metrics ← parse_metrics
  let parts ← parse_list parse_part
  pure { name := name, puzzle_name := puzzle_name, metrics := metrics,
         parts := parts }

-- Auxiliary definitions used by the claim statements --------------------------

/-- Little-endian two's-complement encoding of an `i32` value into four bytes,
the inverse direction of `parse_int`; used to build claim inputs. -/
def enc32 (n : Int) : List Nat :=
  let u := (n % 4294967296).toNat
  [u % 256, u / 256 % 256, u / 65536 % 256, u / 16777216 % 256]

/-- Specification-side description of the atom map: the value at a position is
the one of the last entry with that position ("last write wins"), entries at
other positions being irrelevant. -/
def lastWrite : List (HexIndex × Atom) → HexIndex → Option Atom
  | [], _ => none
  | kv :: rest, pos =>
      match lastWrite rest pos with
      | some a => some a
      | none => if kv.1 = pos then some kv.2 else none

-- Basic reduction lemmas -----------------------------------------------------

@[simp] theorem after_ok {α β : Type} (a : α) (r : List Nat) (f : α → Parser β) :
    POut.after (.ok a r) f = f a r := rfl

@[simp] theorem after_err {α β : Type} (e : String) (f : α → Parser β) :
    POut.after (α := α) (β := β) (.err e) f = .err e := rfl

@[simp] theorem after_panic {α β : Type} (e : String) (f : α → Parser β) :
    POut.after (α := α) (β := β) (.panic e) f = .panic e := rfl

@[simp] theorem bind_apply {α β : Type} (p : Parser α) (f : α → Parser β) (d : List Nat) :
    (p >>= f) d = (p d).after f := rfl

@[simp] theorem pure_apply {α : Type} (a : α) (d : List Nat) :
    (pure a : Parser α) d = .ok a d := rfl

@[simp] theorem perr_apply {α : Type} (e : String) (d : List Nat) :
    (perr e : Parser α) d = .err e := rfl

/-- Reading back an encoded `i32`: `parse_int` on `enc32 n` recovers `n` and
consumes exactly four bytes, for any `n` in the `i32` range. -/
theorem parse_int_enc32 (n : Int) (d : List Nat)
    (h1 : -2147483648 ≤ n) (h2 : n < 2147483648) :
    parse_int (enc32 n ++ d) = POut.ok n d := by
  have hnn : (0 : Int) ≤ n % 4294967296 := Int.emod_nonneg n (by norm_num)
  simp only [enc32, List.cons_append, List.nil_append, parse_int, POut.ok.injEq, and_true]
  simp only [le32, toSigned32]
  split <;> omega

-- Claim theorems ---------------------------------------------------------------

/-- C1: the claim says `parse_var_int` keeps consuming bytes while the current
byte's high bit (0x80) is set. The code instead breaks out of the loop after
the first byte on every input, because its continuation test
`(next & 0x80) != 1` compares the masked value (always 0 or 128) against 1 and
is therefore always true. Concretely, on `[0x81, 0x01]` the read stops after
the first byte with value 1 (a high-bit-respecting read would continue and
produce 129), on `[0x80, 0x01]` it yields 0, and in general on any nonempty
input exactly one byte is consumed and its low 7 bits returned. -/
theorem claim_C1_var_int_ignores_high_bit :
    parse_var_int [129, 1] = POut.ok 1 [1] ∧
    parse_var_int [128, 1] = POut.ok 0 [1] ∧
    ∀ (b : Nat) (d : List Nat), parse_var_int (b :: d) = POut.ok (b &&& 127) d := by
  refine ⟨rfl, rfl, fun b d => ?_⟩
  have hne : b &&& 128 ≠ 1 := by
    intro h
    have h0 := congrArg (fun n => Nat.testBit n 0) h
    have hf : Nat.testBit 128 0 = false := by decide
    have ht : Nat.testBit 1 0 = true := by decide
    simp only [Nat.testBit_and, hf, Bool.and_false, ht] at h0
    exact Bool.false_ne_true h0
  have hlt : b &&& 127 < 18446744073709551616 :=
    lt_of_le_of_lt Nat.and_le_right (by norm_num)
  simp [parse_var_int, parse_var_int_loop, hne, Nat.mod_eq_of_lt hlt]

/-- C2: the claim says a buffer with fewer bytes than a required field needs
makes `parse_puzzle` / `parse_solution` return the "not enough bytes" error,
and in particular that `parse_string` returns it when the announced length
exceeds the remaining bytes. The code instead slices `&self.data[..length]`
with no length check, which panics. On `[0x05]` (a declared 5-byte string with
nothing after it) `parse_string` panics; so do `parse_puzzle` and
`parse_solution` on buffers whose name string is truncated the same way. -/
theorem claim_C2_truncated_string_panics :
    parse_string [5] = POut.panic "slice index out of range" ∧
    parse_puzzle [3, 0, 0, 0, 2] = POut.panic "slice index out of range" ∧
    parse_solution [7, 0, 0, 0, 2] = POut.panic "slice index out of range" :=
  ⟨rfl, rfl, rfl⟩

/-- C3 (counterexample): on the buffer encoding the list count -1, `parse_list`
does not fail with an error value at all — it panics (the `Vec::with_capacity`
capacity overflow after the `as usize` cast), so the claimed
`InvalidEncoding`-class error return is refuted. -/
theorem claim_C3_counterexample :
    POut.isErr (parse_list parse_byte [255, 255, 255, 255]) = false ∧
    parse_list parse_byte [255, 255, 255, 255] = POut.panic "capacity overflow" :=
  ⟨rfl, rfl⟩

/-- C3 (amended): for every buffer in which a length-prefixed list's int32
count is negative, `parse_list` neither succeeds nor treats the count as zero
nor returns an error: the count cast to `usize` makes `Vec::with_capacity`
panic with a capacity overflow before any element is decoded. -/
theorem claim_C3_negative_count_panics {α : Type} (f : Parser α)
    (d r : List Nat) (amount : Int)
    (h : parse_int d = POut.ok amount r) (hneg : amount < 0) :
    parse_list f d = POut.panic "capacity overflow" := by
  simp [parse_list, h, hneg]

/-- Witness for C3's amended theorem at the concrete count -1. -/
theorem claim_C3_witness :
    parse_list parse_byte [255, 255, 255, 255] = POut.panic "capacity overflow" :=
  claim_C3_negative_count_panics parse_byte [255, 255, 255, 255] [] (-1)
    (by decide) (by decide)

/-- C9: with no bytes remaining, `parse_var_int` succeeds with value 0 (its
loop body never runs and it returns `Ok(value)`), and consequently
`parse_string` at exact end of input succeeds with the empty string. -/
theorem claim_C9_empty_input_var_int :
    parse_var_int [] = POut.ok 0 [] ∧ parse_string [] = POut.ok [] [] :=
  ⟨rfl, rfl⟩

/-- C10: a bond-type byte of 0 is accepted: it is not the plain sentinel 1 and
has no bit of the illegal mask 0b1111_0001 set, so it decodes to a triplex
bond with all three color flags false. -/
theorem claim_C10_bond_type_zero (d : List Nat) :
    parse_bond_type (0 :: d) = POut.ok (BondType.Triplex false false false) d := rfl

/-- C6: one byte decides the bond type: the exact value 1 is a plain bond; any
other byte with a bit of the mask 0b1111_0001 set (bits 0, 4, 5, 6, 7 — all
bits outside the three color bits 1, 2, 3) is the "invalid bond type" error;
every remaining byte is a triplex bond whose red, black, yellow flags are bits
1, 2, 3. -/
theorem claim_C6_bond_type_byte (b : Nat) (d : List Nat) :
    (parse_bond_type (1 :: d) = POut.ok BondType.Normal d) ∧
    (b ≠ 1 → b &&& 241 ≠ 0 → parse_bond_type (b :: d) = POut.err "invalid bond type") ∧
    (b &&& 241 = 0 → parse_bond_type (b :: d) =
      POut.ok (BondType.Triplex (b &&& 2 != 0) (b &&& 4 != 0) (b &&& 8 != 0)) d) := by
  refine ⟨rfl, fun h1 h2 => ?_, fun h3 => ?_⟩
  · simp [parse_bond_type, parse_byte, h1, h2]
  · have hb : b ≠ 1 := by
      intro e
      subst e
      exact absurd h3 (by decide)
    simp [parse_bond_type, parse_byte, hb, h3]

/-- Witness for C6 at the concrete bytes 1 (plain), 16 (illegal bit 4) and
14 (all three color bits). -/
theorem claim_C6_witness :
    parse_bond_type [1, 99] = POut.ok BondType.Normal [99] ∧
    parse_bond_type [16, 99] = POut.err "invalid bond type" ∧
    parse_bond_type [14, 99] = POut.ok (BondType.Triplex true true true) [99] :=
  ⟨(claim_C6_bond_type_byte 16 [99]).1,
   (claim_C6_bond_type_byte 16 [99]).2.1 (by decide) (by decide),
   (claim_C6_bond_type_byte 14 [99]).2.2 (by decide)⟩

/-- C4: the metrics block of `parse_solution`. A tag of 0 yields no metrics; a
tag of 4 followed by four (sentinel, value) int32 pairs whose sentinels read
exactly 0, 1, 2, 3 in order yields a `Metrics` with the four values bound to
cycles, cost, area, instructions; a sentinel out of order at any of the four
positions fails with the corresponding sentinel-mismatch error; any tag other
than 0 or 4 fails the decode. -/
theorem claim_C4_metrics_shape (c v a i s t : Int) (d : List Nat)
    (hc : -2147483648 ≤ c ∧ c < 2147483648)
    (hv : -2147483648 ≤ v ∧ v < 2147483648)
    (ha : -2147483648 ≤ a ∧ a < 2147483648)
    (hi : -2147483648 ≤ i ∧ i < 2147483648)
    (hs : -2147483648 ≤ s ∧ s < 2147483648)
    (ht : -2147483648 ≤ t ∧ t < 2147483648) :
    (parse_metrics (enc32 0 ++ d) = POut.ok none d) ∧
    (parse_metrics (enc32 4 ++ enc32 0 ++ enc32 c ++ enc32 1 ++ enc32 v ++
        enc32 2 ++ enc32 a ++ enc32 3 ++ enc32 i ++ d) =
      POut.ok (some { cycles := c, cost := v, area := a, instructions := i }) d) ∧
    (t ≠ 0 → t ≠ 4 → parse_metrics (enc32 t ++ d) = POut.err "invalid number of metrics") ∧
    (s ≠ 0 → parse_metrics (enc32 4 ++ enc32 s ++ d) = POut.err "invalid solution (0 != 0)") ∧
    (s ≠ 1 → parse_metrics (enc32 4 ++ enc32 0 ++ enc32 c ++ enc32 s ++ d) =
      POut.err "invalid solution (1 != 1)") ∧
    (s ≠ 2 → parse_metrics (enc32 4 ++ enc32 0 ++ enc32 c ++ enc32 1 ++ enc32 v ++
        enc32 s ++ d) = POut.err "invalid solution (2 != 2)") ∧
    (s ≠ 3 → parse_metrics (enc32 4 ++ enc32 0 ++ enc32 c ++ enc32 1 ++ enc32 v ++
        enc32 2 ++ enc32 a ++ enc32 s ++ d) = POut.err "invalid solution (3 != 3)") := by
  have e0 := parse_int_enc32 0
  have e1 := parse_int_enc32 1
  have e2 := parse_int_enc32 2
  have e3 := parse_int_enc32 3
  have e4 := parse_int_enc32 4
  have ec := parse_int_enc32 c
  have ev := parse_int_enc32 v
  have ea := parse_int_enc32 a
  have ei := parse_int_enc32 i
  have es := parse_int_enc32 s
  have et := parse_int_enc32 t
  refine ⟨?_, ?_, fun h1 h2 => ?_, fun h => ?_, fun h => ?_, fun h => ?_, fun h => ?_⟩
  · simp [parse_metrics, e0 _ (by norm_num) (by norm_num)]
  · simp [parse_metrics, e4 _ (by norm_num) (by norm_num), e0 _ (by norm_num) (by norm_num),
      e1 _ (by norm_num) (by norm_num), e2 _ (by norm_num) (by norm_num),
      e3 _ (by norm_num) (by norm_num), ec _ hc.1 hc.2, ev _ hv.1 hv.2,
      ea _ ha.1 ha.2, ei _ hi.1 hi.2]
  · simp [parse_metrics, et _ ht.1 ht.2, h1, h2]
  · simp [parse_metrics, e4 _ (by norm_num) (by norm_num), es _ hs.1 hs.2, h]
  · simp [parse_metrics, e4 _ (by norm_num) (by norm_num), e0 _ (by norm_num) (by norm_num),
      ec _ hc.1 hc.2, es _ hs.1 hs.2, h]
  · simp [parse_metrics, e4 _ (by norm_num) (by norm_num), e0 _ (by norm_num) (by norm_num),
      e1 _ (by norm_num) (by norm_num), ec _ hc.1 hc.2, ev _ hv.1 hv.2, es _ hs.1 hs.2, h]
  · simp [parse_metrics, e4 _ (by norm_num) (by norm_num), e0 _ (by norm_num) (by norm_num),
      e1 _ (by norm_num) (by norm_num), e2 _ (by norm_num) (by norm_num),
      ec _ hc.1 hc.2, ev _ hv.1 hv.2, ea _ ha.1 ha.2, es _ hs.1 hs.2, h]

/-- Witness for C4: the spec's literal example (values 120, 45, 9, 30 with
sentinels 0, 1, 2, 3 decode to that Metrics record) and the out-of-order
sentinel example (first sentinel 1 fails). -/
theorem claim_C4_witness :
    parse_metrics (enc32 4 ++ enc32 0 ++ enc32 120 ++ enc32 1 ++ enc32 45 ++
        enc32 2 ++ enc32 9 ++ enc32 3 ++ enc32 30 ++ []) =
      POut.ok (some { cycles := 120, cost := 45, area := 9, instructions := 30 }) [] ∧
    parse_metrics (enc32 4 ++ enc32 1 ++ []) = POut.err "invalid solution (0 != 0)" :=
  ⟨(claim_C4_metrics_shape 120 45 9 30 1 5 [] (by norm_num) (by norm_num) (by norm_num)
      (by norm_num) (by norm_num) (by norm_num)).2.1,
   (claim_C4_metrics_shape 120 45 9 30 1 5 [] (by norm_num) (by norm_num) (by norm_num)
      (by norm_num) (by norm_num) (by norm_num)).2.2.2.1 (by norm_num)⟩

/-- C5: the conditional trailing fields of a part. The track path is read from
the stream exactly when the part name is "track" and for every other name the
result is the empty list with no bytes consumed; the conduit index and conduit
path are read exactly when the part name is "pipe" and otherwise default to
`(0, [])` with no bytes consumed. The three concrete decodes show the full
per-part order — an "arm1" part whose record carries no conditional bytes, a
"track" part whose track list precedes the arm number, and a "pipe" part whose
conduit fields follow the arm number. -/
theorem claim_C5_conditional_part_fields (name : List Nat) (d : List Nat) :
    (name ≠ [116, 114, 97, 99, 107] → parse_track_hexes name d = POut.ok [] d) ∧
    (parse_track_hexes [116, 114, 97, 99, 107] d = parse_list parse_i_hex_index d) ∧
    (name ≠ [112, 105, 112, 101] → parse_conduit_fields name d = POut.ok (0, []) d) ∧
    (parse_conduit_fields [112, 105, 112, 101] d =
      (do
        let conduit_index ← parse_int
        let conduit_hexes ← parse_list parse_i_hex_index
        pure (conduit_index, conduit_hexes) : Parser (Int × List HexIndex)) d) ∧
    (parse_part ([4, 97, 114, 109, 49] ++ [1] ++ enc32 0 ++ enc32 0 ++ enc32 1 ++
        enc32 0 ++ enc32 0 ++ enc32 0 ++ enc32 0) =
      POut.ok { ty := .Arm, pos := ⟨0, 0⟩, rotation := 0, arm_number := 1,
                arm_length := 1, index := 0, conduit_index := 0, track_hexes := [],
                conduit_hexes := [], instructions := [] } []) ∧
    (parse_part ([5, 116, 114, 97, 99, 107] ++ [1] ++ enc32 0 ++ enc32 0 ++ enc32 1 ++
        enc32 0 ++ enc32 0 ++ enc32 0 ++ enc32 1 ++ enc32 2 ++ enc32 3 ++ enc32 0) =
      POut.ok { ty := .Track, pos := ⟨0, 0⟩, rotation := 0, arm_number := 1,
                arm_length := 1, index := 0, conduit_index := 0,
                track_hexes := [⟨2, 3⟩], conduit_hexes := [], instructions := [] } []) ∧
    (parse_part ([4, 112, 105, 112, 101] ++ [1] ++ enc32 0 ++ enc32 0 ++ enc32 1 ++
        enc32 0 ++ enc32 0 ++ enc32 0 ++ enc32 0 ++ enc32 7 ++ enc32 1 ++
        enc32 4 ++ enc32 5) =
      POut.ok { ty := .Conduit, pos := ⟨0, 0⟩, rotation := 0, arm_number := 1,
                arm_length := 1, index := 0, conduit_index := 7, track_hexes := [],
                conduit_hexes := [⟨4, 5⟩], instructions := [] } []) := by
  refine ⟨fun h => ?_, ?_, fun h => ?_, ?_, by decide, by decide, by decide⟩
  · simp [parse_track_hexes, h]
  · simp [parse_track_hexes]
  · simp [parse_conduit_fields, h]
  · simp [parse_conduit_fields]

/-- Witness for C5 at the non-track, non-pipe name "arm1": nothing is consumed
and the conditional fields take their defaults. -/
theorem claim_C5_witness :
    parse_track_hexes [97, 114, 109, 49] [7] = POut.ok [] [7] ∧
    parse_conduit_fields [97, 114, 109, 49] [7] = POut.ok (0, []) [7] :=
  ⟨(claim_C5_conditional_part_fields [97, 114, 109, 49] [7]).1 (by decide),
   (claim_C5_conditional_part_fields [97, 114, 109, 49] [7]).2.2.1 (by decide)⟩

/-- C7: the permissions mask is preserved bit-for-bit. Decoding a minimal
puzzle whose permissions field holds any eight bytes yields exactly
`from_bits_retain` of their little-endian 64-bit value, whose every bit equals
the corresponding bit of the input mask; and a concrete decode with bit 63 set
yields a Permissions value whose bit 63 reads set. -/
theorem claim_C7_permissions_bitforbit (p0 p1 p2 p3 p4 p5 p6 p7 : Nat) :
    (parse_puzzle ([3, 0, 0, 0] ++ [0] ++ [0, 0, 0, 0, 0, 0, 0, 0] ++
        [p0, p1, p2, p3, p4, p5, p6, p7] ++ [0, 0, 0, 0] ++ [0, 0, 0, 0] ++
        [1, 0, 0, 0] ++ [0]) =
      POut.ok { name := [], creator_id := 0, reagents := [], products := [],
                product_multiplier := 1,
                permissions := Permissions.from_bits_retain (le64 p0 p1 p2 p3 p4 p5 p6 p7),
                production_info := none } []) ∧
    (∀ i : Nat,
      (Permissions.from_bits_retain (le64 p0 p1 p2 p3 p4 p5 p6 p7)).bits.testBit i =
        (le64 p0 p1 p2 p3 p4 p5 p6 p7).testBit i) ∧
    (parse_puzzle ([3, 0, 0, 0] ++ [0] ++ [0, 0, 0, 0, 0, 0, 0, 0] ++
        [0, 0, 0, 0, 0, 0, 0, 128] ++ [0, 0, 0, 0] ++ [0, 0, 0, 0] ++
        [1, 0, 0, 0] ++ [0]) =
      POut.ok { name := [], creator_id := 0, reagents := [], products := [],
                product_multiplier := 1,
                permissions := ⟨9223372036854775808⟩,
                production_info := none } []) ∧
    Nat.testBit 9223372036854775808 63 = true :=
  ⟨rfl, fun _ => rfl, by decide, by decide⟩

/-- Inserting into the association-list model of the atom map changes exactly
the inserted key. -/
theorem mapLookup_mapInsert (m : List (HexIndex × Atom)) (k : HexIndex) (v : Atom)
    (key : HexIndex) :
    mapLookup (mapInsert m k v) key = if k = key then some v else mapLookup m key := by
  induction m with
  | nil => simp [mapInsert, mapLookup]
  | cons hd tl ih =>
      obtain ⟨k0, v0⟩ := hd
      by_cases h : k0 = k
      · subst h
        simp only [mapInsert, if_pos rfl, mapLookup]
        split_ifs <;> simp_all
      · simp only [mapInsert, if_neg h, mapLookup, ih]
        split_ifs <;> simp_all

/-- Folding entries into the atom map from any starting map: the result at a
key is the last write among the entries, falling back to the starting map. -/
theorem mapLookup_foldl (l m : List (HexIndex × Atom)) (key : HexIndex) :
    mapLookup (l.foldl (fun acc kv => mapInsert acc kv.1 kv.2) m) key =
      match lastWrite l key with
      | some a => some a
      | none => mapLookup m key := by
  induction l generalizing m with
  | nil => simp [lastWrite]
  | cons kv l ih =>
      simp only [List.foldl_cons, lastWrite, ih, mapLookup_mapInsert]
      cases hlw : lastWrite l key <;> split_ifs <;> simp_all

/-- C8: the decoded atom map keeps, at every position, exactly the atom of the
last entry written at that position, so a duplicated position retains only the
later entry and distinct positions are all retained. The concrete decodes via
`parse_molecule` show a duplicate position (Salt then Air at (0,0), keeping
Air) and two distinct positions (both kept). -/
theorem claim_C8_atom_map_last_write_wins (entries : List (HexIndex × Atom))
    (pos : HexIndex) :
    (mapLookup (hashMapOfList entries) pos = lastWrite entries pos) ∧
    (parse_molecule ([2, 0, 0, 0] ++ [1, 0, 0] ++ [2, 0, 0] ++ [0, 0, 0, 0]) =
      POut.ok { atoms := [(⟨0, 0⟩, Atom.Air)], bonds := [] } []) ∧
    (parse_molecule ([2, 0, 0, 0] ++ [1, 0, 0] ++ [2, 1, 0] ++ [0, 0, 0, 0]) =
      POut.ok { atoms := [(⟨0, 0⟩, Atom.Salt), (⟨1, 0⟩, Atom.Air)], bonds := [] } []) := by
  refine ⟨?_, by decide, by decide⟩
  rw [hashMapOfList, mapLookup_foldl]
  cases lastWrite entries pos <;> simp [mapLookup]

end OmSim
